import Mathlib

/-!
Shallow embedding of the `mastersproject` notebook repository.

The repository consists of Jupyter notebooks driving the external `porepy`
mixed-dimensional finite-volume library, plus a Dockerfile.  The only code the
notebooks define themselves are two time-stepping wrapper classes,
`ImplicitTpfa(pp.Tpfa)` and `ImplicitScalarSource(pp.ScalarSource)`
(defined identically in `old/transport/step-by-step-simplest-transport-with-fracture.ipynb`,
`...-3D.ipynb` and `advection-diffusion-slim.ipynb`).  This file embeds those
classes, the Dockerfile, and the notebook cell pipelines, and proves the
specified properties about them.

Numpy arrays and scipy sparse matrices are embedded as rational lists:
a vector is `List ℚ` and a matrix is a list of rows.  Scalar multiplication on
the left and on the right are kept separate so that the embedded code can
mirror the Python expressions (`a * dt` versus `dt * a`) exactly.
-/

/-- A numpy 1-D array of floats, embedded as a list of rationals. -/
abbrev Vec := List ℚ

/-- A scipy sparse / numpy 2-D array, embedded densely as a list of rows. -/
abbrev Mat := List (List ℚ)

/-- `v * c`: numpy vector times scalar on the right. -/
def vecScaleR (v : Vec) (c : ℚ) : Vec := v.map (· * c)

/-- `c * v`: scalar times numpy vector on the left. -/
def vecScaleL (c : ℚ) (v : Vec) : Vec := v.map (c * ·)

/-- `a * c`: matrix times scalar on the right, entrywise. -/
def matScaleR (a : Mat) (c : ℚ) : Mat := a.map (fun r => vecScaleR r c)

/-- `c * a`: scalar times matrix on the left, entrywise. -/
def matScaleL (c : ℚ) (a : Mat) : Mat := a.map (fun r => vecScaleL c r)

/-- Dot product of two vectors. -/
def dotQ (u v : Vec) : ℚ := (List.zipWith (· * ·) u v).sum

/-- Matrix-vector product. -/
def matVec (a : Mat) (v : Vec) : Vec := a.map (fun r => dotQ r v)

/-- Matrix-matrix product (rows of `a` against columns of `b`). -/
def matMul (a b : Mat) : Mat := a.map (fun r => b.transpose.map (fun c => dotQ r c))

/-- Entrywise matrix sum, modelling `+=` on sparse matrices. -/
def matAdd (a b : Mat) : Mat := List.zipWith (fun r s => List.zipWith (· + ·) r s) a b

/-- Entrywise matrix difference, modelling `-=` on sparse matrices. -/
def matSub (a b : Mat) : Mat := List.zipWith (fun r s => List.zipWith (· - ·) r s) a b

/-- `shape[0]` of a matrix: its number of rows. -/
def rowsOf (a : Mat) : ℕ := a.length

/-- `shape[1]` of a matrix: the length of its first row. -/
def colsOf (a : Mat) : ℕ := (a.headD []).length

/-- A `porepy` grid, carrying the geometry fields the notebook methods read.
`cell_faces` is the face-cell incidence matrix (`num_faces × num_cells`), so its
transpose is the discrete divergence.  `hf2f` embeds the sub-face-to-face map
`pp.fvutils.map_hf_2_f(nd=1, g=g)`, which the external library derives from the
grid itself. -/
structure Grid where
  dim : ℕ
  num_cells : ℕ
  num_faces : ℕ
  cell_faces : Mat
  hf2f : Mat

/-- The mortar grid stored on an edge of the grid bucket, with its two integrated
projection operators (`mortar_to_slave_int()` / `mortar_to_master_int()`). -/
structure MortarGrid where
  mortar_to_slave_int : Mat
  mortar_to_master_int : Mat

/-- The entries of `data[pp.PARAMETERS][keyword]` the notebook methods read. -/
structure Params where
  time_step : ℚ
  source : Vec

/-- The entries of `data[pp.DISCRETIZATION_MATRICES][keyword]` the notebook
methods read. -/
structure DiscretizationMatrices where
  bound_flux : Mat
  bound_source : Mat

/-- The node data dictionary `data`, viewed through its two relevant top-level
keys, each indexed by a parameter keyword string. -/
structure Data where
  parameters : String → Params
  discretization_matrices : String → DiscretizationMatrices

/-- The edge data dictionary `data_edge`; the methods only read `"mortar_grid"`. -/
structure DataEdge where
  mortar_grid : MortarGrid

/-- State of the external `pp.Tpfa` discretization object: construction stores
only the parameter keyword. -/
structure Tpfa where
  keyword : String

/-- State of the external `pp.ScalarSource` discretization object: construction
stores only the parameter keyword. -/
structure ScalarSource where
  keyword : String

/-- `class ImplicitTpfa(pp.Tpfa)` declares no `__init__` and no new instance
attributes, so its instance state is exactly the base-class state. -/
abbrev ImplicitTpfa := Tpfa

/-- `class ImplicitScalarSource(pp.ScalarSource)` declares no `__init__` and no
new instance attributes, so its instance state is exactly the base-class state. -/
abbrev ImplicitScalarSource := ScalarSource

/-- The 3x3 block matrix `cc` (or `matrix`) of the coupling condition: a block
of coupling contributions for the master, slave and edge unknowns. -/
abbrev CC := Fin 3 → Fin 3 → Mat

/-- The 3x1 block right-hand side `rhs`. -/
abbrev RhsBlocks := Fin 3 → Vec

/-- In-place update of one block of a 3x3 block matrix. -/
def updateCC (cc : CC) (i j : Fin 3) (m : Mat) : CC :=
  fun a b => if a = i ∧ b = j then m else cc a b

/-- `ImplicitTpfa.assemble_matrix_rhs(self, g, data)`:
```
a, b = super().assemble_matrix_rhs(g, data)
dt = data[pp.PARAMETERS][self.keyword]["time_step"]
a = a * dt
b = b * dt
return a, b
```
The external base method `pp.Tpfa.assemble_matrix_rhs` is passed in as `base`. -/
def ImplicitTpfa.assemble_matrix_rhs (self : ImplicitTpfa)
    (base : Tpfa → Grid → Data → Mat × Vec) (g : Grid) (data : Data) : Mat × Vec :=
  let ab := base self g data
  let dt := (data.parameters self.keyword).time_step
  let a := matScaleR ab.1 dt
  let b := vecScaleR ab.2 dt
  (a, b)

/-- The `bound_flux` matrix after the optional sub-face-to-face mapping:
```
if g.dim > 0 and bound_flux.shape[0] != g.num_faces:
    hf2f = pp.fvutils.map_hf_2_f(nd=1, g=g)
    bound_flux = hf2f * bound_flux
```
-/
def mapped_bound_flux (g : Grid) (bound_flux : Mat) : Mat :=
  if g.dim > 0 ∧ rowsOf bound_flux ≠ g.num_faces then matMul g.hf2f bound_flux
  else bound_flux

/-- `ImplicitTpfa.assemble_int_bound_flux(self, g, data, data_edge, grid_swap,
cc, matrix, rhs, self_ind)`.  The Python method mutates `cc[self_ind, 2]` in
place and returns `None`; possibly it raises a `ValueError` first, in which case
no mutation has happened.  The embedding passes the mutable state explicitly and
returns `(raised error, cc, matrix, rhs)`. -/
def ImplicitTpfa.assemble_int_bound_flux (self : ImplicitTpfa) (g : Grid)
    (data : Data) (data_edge : DataEdge) (grid_swap : Bool) (cc : CC) (matrix : CC)
    (rhs : RhsBlocks) (self_ind : Fin 3) : Option String × CC × CC × RhsBlocks :=
  let dt := (data.parameters self.keyword).time_step
  let div := g.cell_faces.transpose
  let bound_flux := (data.discretization_matrices self.keyword).bound_flux
  let mg := data_edge.mortar_grid
  let proj := if grid_swap then mg.mortar_to_slave_int else mg.mortar_to_master_int
  let bound_flux := mapped_bound_flux g bound_flux
  if g.dim > 0 ∧ colsOf bound_flux ≠ rowsOf proj then
    (some "Inconsistent shapes. Did you define a sub-face boundary condition but only a face-wise mortar?",
      cc, matrix, rhs)
  else
    (none,
      updateCC cc self_ind 2
        (matAdd (cc self_ind 2) (matMul (matMul (matScaleL dt div) bound_flux) proj)),
      matrix, rhs)

/-- `ImplicitTpfa.assemble_int_bound_source(self, g, data, data_edge, grid_swap,
cc, matrix, rhs, self_ind)`:
```
mg = data_edge["mortar_grid"]
if grid_swap: proj = mg.mortar_to_master_int()
else: proj = mg.mortar_to_slave_int()
dt = data[pp.PARAMETERS][self.keyword]["time_step"]
cc[self_ind, 2] -= proj * dt
```
It cannot raise, so the error component is always `none`. -/
def ImplicitTpfa.assemble_int_bound_source (self : ImplicitTpfa) (g : Grid)
    (data : Data) (data_edge : DataEdge) (grid_swap : Bool) (cc : CC) (matrix : CC)
    (rhs : RhsBlocks) (self_ind : Fin 3) : Option String × CC × CC × RhsBlocks :=
  let mg := data_edge.mortar_grid
  let proj := if grid_swap then mg.mortar_to_master_int else mg.mortar_to_slave_int
  let dt := (data.parameters self.keyword).time_step
  (none, updateCC cc self_ind 2 (matSub (cc self_ind 2) (matScaleR proj dt)),
    matrix, rhs)

/-- Modelled from the spec: `pp.ScalarSource.ndof` belongs to the external
library and is not in the repository; the notebook assertion message says
"There should be one source value for each cell", so the number of degrees of
freedom is the number of cells of the grid. -/
def ScalarSource.ndof (_self : ScalarSource) (g : Grid) : ℕ := g.num_cells

/-- `ImplicitScalarSource.assemble_rhs(self, g, data)`:
```
dt = data[pp.PARAMETERS][self.keyword]["time_step"]
matrix_dictionary = data[pp.DISCRETIZATION_MATRICES][self.keyword]
parameter_dictionary = data[pp.PARAMETERS][self.keyword]
sources = parameter_dictionary["source"]
assert sources.size == self.ndof(g), "There should be one source value for each cell"
return matrix_dictionary["bound_source"] * sources * dt
```
A failed assertion is embedded as `none`. -/
def ImplicitScalarSource.assemble_rhs (self : ImplicitScalarSource) (g : Grid)
    (data : Data) : Option Vec :=
  let dt := (data.parameters self.keyword).time_step
  let matrix_dictionary := data.discretization_matrices self.keyword
  let parameter_dictionary := data.parameters self.keyword
  let sources := parameter_dictionary.source
  if sources.length = ScalarSource.ndof self g then
    some (vecScaleR (matVec matrix_dictionary.bound_source sources) dt)
  else
    none

/-! ## The Dockerfile, `src/Dockerfile`, transcribed instruction by instruction. -/

/-- One Dockerfile instruction, abstracted to the operations the recipe uses. -/
inductive DockerInstruction where
  | fromImage (image : String)
  | condaConfigAppendChannel (channel : String)
  | condaInstall (packages : List String)
  | condaInstallChannel (channel : String) (packages : List String)
  | pipInstall (package : String)
  | aptGetInstall (packages : List String)
  | workdir (dir : String)
  | wget (url : String)
  | mkdir (dir : String)
  | mv (source : String) (dest : String)
  | condaDevelop (path : String)
  | gitClone (single_branch : Bool) (branch : String) (url : String)
deriving DecidableEq, Repr

/-- The full instruction sequence of `src/Dockerfile`, in order. -/
def dockerfileInstructions : List DockerInstruction :=
  [DockerInstruction.fromImage "intelpython/intelpython3_core",
   DockerInstruction.condaConfigAppendChannel "conda-forge",
   DockerInstruction.condaConfigAppendChannel "defaults",
   DockerInstruction.condaInstall
     ["meshio", "networkx", "sympy", "matplotlib", "cython", "future", "shapely",
      "pytest", "pytest-cov", "pytest-runner", "black", "mypy", "flake8",
      "pendulum", "pandas", "pydantic", "pytest-mock"],
   DockerInstruction.pipInstall "vtk",
   DockerInstruction.aptGetInstall
     ["libgl1", "libglu1", "libxcursor1", "libxft2", "libxinerama1"],
   DockerInstruction.pipInstall "gmsh",
   DockerInstruction.condaInstall ["tornado"],
   DockerInstruction.condaInstall ["conda-build"],
   DockerInstruction.condaInstallChannel "haasad" ["pypardiso"],
   DockerInstruction.workdir "/home",
   DockerInstruction.wget
     "https://raw.githubusercontent.com/keileg/polyhedron/master/polyhedron.py",
   DockerInstruction.mkdir "poly",
   DockerInstruction.mv "polyhedron.py" "poly/robust_point_in_polyhedron.py",
   DockerInstruction.condaDevelop "poly",
   DockerInstruction.gitClone true "develop" "https://github.com/pmgbergen/porepy.git",
   DockerInstruction.condaDevelop "porepy/src",
   DockerInstruction.gitClone true "develop" "https://github.com/haakon-e/mastersproject.git",
   DockerInstruction.condaDevelop "mastersproject/src",
   DockerInstruction.condaDevelop "mastersproject/src/mastersproject"]

/-- The source-repository clones performed by a Dockerfile: the `git clone`
instructions, with their `--single-branch` flag, branch and URL. -/
def clonedSourceRepositories (instrs : List DockerInstruction) :
    List (Bool × String × String) :=
  instrs.filterMap (fun i =>
    match i with
    | DockerInstruction.gitClone sb br url => some (sb, br, url)
    | _ => none)

/-! ## Notebook cells with recorded error outputs, and the failing call. -/

/-- All notebook cells in the repository whose stored outputs contain an entry
of `"output_type": "error"`, transcribed as (file, exception name, failing
call).  A scan of every notebook finds exactly the one cell in
`src/unnamed/part_000`. -/
def recordedErrorOutputs : List (String × String × String) :=
  [("src/unnamed/part_000", "AttributeError", "network_2d.to_vtk")]

/-- Modelled from the spec: the attribute table of the external
`pp.FractureNetwork2d` class is not in the repository.  The notebooks
successfully call its `mesh` method, and the recorded traceback shows
`AttributeError: FractureNetwork2d object has no attribute to_vtk`, so the
table contains `mesh` and not `to_vtk`. -/
def fractureNetwork2dAttributes : List String := ["mesh"]

/-- Python attribute access followed by a method call: if the attribute exists
the call runs on the state, otherwise an `AttributeError` is raised and the
state is untouched. -/
def callMethod {σ : Type} (attrs : List String) (name : String) (call : σ → σ)
    (s : σ) : Except String σ :=
  if name ∈ attrs then Except.ok (call s) else Except.error "AttributeError"

/-- Running a notebook cell whose only statement is a method call: on an
exception the interpreter keeps the pre-cell program state. -/
def runCellKeepingState {σ : Type} (attrs : List String) (name : String)
    (call : σ → σ) (s : σ) : σ :=
  match callMethod attrs name call s with
  | Except.ok s2 => s2
  | Except.error _ => s

/-! ## The notebook solve pipelines, transcribed cell by cell. -/

/-- One pipeline-relevant operation appearing in a notebook. -/
inductive NotebookEvent where
  | buildGeometry
  | mesh
  | assignParams
  | discretize (assembler : String)
  | assemble (assembler : String)
  | solve
  | distribute (assembler : String)
  | exportStep
deriving DecidableEq, Repr

/-- A notebook solve pipeline: the straight-line cell sequence, followed by the
body of its time-stepping loop (empty when the notebook has no loop). -/
structure NotebookPipeline where
  name : String
  straight : List NotebookEvent
  loop : List NotebookEvent
deriving DecidableEq, Repr

/-- `old/transport/step-by-step-simplest-transport-with-fracture.ipynb`:
fracture network and mesh, parameter/boundary-condition loops, flow solve
(`assembler_flow.discretize(); assemble_matrix_rhs(); spsolve; distribute`),
transport discretization, export of the initial state, then the backward-Euler
loop (`assemble_matrix_rhs; spsolve; distribute_variable; write_vtk`). -/
def pipeline_step2d : NotebookPipeline :=
  { name := "step-by-step-simplest-transport-with-fracture"
    straight :=
      [NotebookEvent.buildGeometry, NotebookEvent.mesh, NotebookEvent.assignParams,
       NotebookEvent.discretize "assembler_flow", NotebookEvent.assemble "assembler_flow",
       NotebookEvent.solve, NotebookEvent.distribute "assembler_flow",
       NotebookEvent.discretize "assembler_transport", NotebookEvent.exportStep]
    loop :=
      [NotebookEvent.assemble "assembler_transport", NotebookEvent.solve,
       NotebookEvent.distribute "assembler_transport", NotebookEvent.exportStep] }

/-- `old/transport/step-by-step-simplest-transport-with-fracture-3D.ipynb`:
same structure as the 2-D notebook with a 3-D fracture network. -/
def pipeline_step3d : NotebookPipeline :=
  { name := "step-by-step-simplest-transport-with-fracture-3D"
    straight :=
      [NotebookEvent.buildGeometry, NotebookEvent.mesh, NotebookEvent.assignParams,
       NotebookEvent.discretize "assembler_flow", NotebookEvent.assemble "assembler_flow",
       NotebookEvent.solve, NotebookEvent.distribute "assembler_flow",
       NotebookEvent.discretize "assembler_transport", NotebookEvent.exportStep]
    loop :=
      [NotebookEvent.assemble "assembler_transport", NotebookEvent.solve,
       NotebookEvent.distribute "assembler_transport", NotebookEvent.exportStep] }

/-- `old/Fractures/sample_setup_with_fractures.ipynb`: fracture definition and
`cart_grid` mesh, parameter loops, then `assembler.discretize();
assemble_matrix_rhs(); spsolve; distribute_variable`; no export, no loop. -/
def pipeline_sample_setup : NotebookPipeline :=
  { name := "sample_setup_with_fractures"
    straight :=
      [NotebookEvent.buildGeometry, NotebookEvent.mesh, NotebookEvent.assignParams,
       NotebookEvent.discretize "assembler", NotebookEvent.assemble "assembler",
       NotebookEvent.solve, NotebookEvent.distribute "assembler"]
    loop := [] }

/-- `old/PorePy development/bugs-improvements/variable_filter on
assembler.discretize().ipynb`: `create_domain` (cart grid), `assign_data`
(boundary conditions and parameters), an unfiltered
discretize/assemble/solve/distribute pipeline, then a second assembler with a
term filter running the same four steps. -/
def pipeline_variable_filter : NotebookPipeline :=
  { name := "variable_filter on assembler.discretize()"
    straight :=
      [NotebookEvent.buildGeometry, NotebookEvent.mesh, NotebookEvent.assignParams,
       NotebookEvent.discretize "assembler", NotebookEvent.assemble "assembler",
       NotebookEvent.solve, NotebookEvent.distribute "assembler",
       NotebookEvent.discretize "assembler2", NotebookEvent.assemble "assembler2",
       NotebookEvent.solve, NotebookEvent.distribute "assembler2"]
    loop := [] }

/-- Every solve pipeline appearing in the repository's notebooks (the cell
sequences that call the sparse linear solver). -/
def notebookSolvePipelines : List NotebookPipeline :=
  [pipeline_step2d, pipeline_step3d, pipeline_sample_setup, pipeline_variable_filter]

/-- Every event satisfying `p` occurs strictly before every event satisfying
`q`: after the first `q` event no `p` event appears. -/
def allBefore (es : List NotebookEvent) (p q : NotebookEvent → Bool) : Bool :=
  ((es.dropWhile (fun e => !q e)).filter p).isEmpty

/-- Is this event a geometry-building or meshing step? -/
def isGeometryOrMesh : NotebookEvent → Bool
  | NotebookEvent.buildGeometry => true
  | NotebookEvent.mesh => true
  | _ => false

/-- Is this event a parameter / boundary-condition assignment? -/
def isAssignParams : NotebookEvent → Bool
  | NotebookEvent.assignParams => true
  | _ => false

/-- Is this event a `discretize()` call (of any assembler)? -/
def isDiscretize : NotebookEvent → Bool
  | NotebookEvent.discretize _ => true
  | _ => false

/-- Is this event an export step? -/
def isExport : NotebookEvent → Bool
  | NotebookEvent.exportStep => true
  | _ => false

/-- Is this event a `distribute_variable` call? -/
def isDistribute : NotebookEvent → Bool
  | NotebookEvent.distribute _ => true
  | _ => false

/-- Every `assemble_matrix_rhs()` call is preceded by a `discretize()` call on
the same assembler; `seen` accumulates the assemblers discretized so far. -/
def discretizedBeforeAssemble : List String → List NotebookEvent → Bool
  | _, [] => true
  | seen, NotebookEvent.discretize n :: rest =>
      discretizedBeforeAssemble (n :: seen) rest
  | seen, NotebookEvent.assemble n :: rest =>
      seen.contains n && discretizedBeforeAssemble seen rest
  | seen, _ :: rest => discretizedBeforeAssemble seen rest

/-- Every solver call is preceded by an assembly, and every distribution of a
solution is preceded by a solver call.  The flags record whether an assembly
(resp. a solve) has happened yet. -/
def solveAfterAssemble : Bool → Bool → List NotebookEvent → Bool
  | _, _, [] => true
  | _, hasS, NotebookEvent.assemble _ :: rest => solveAfterAssemble true hasS rest
  | hasA, _, NotebookEvent.solve :: rest => hasA && solveAfterAssemble hasA true rest
  | hasA, hasS, NotebookEvent.distribute _ :: rest =>
      hasS && solveAfterAssemble hasA hasS rest
  | hasA, hasS, _ :: rest => solveAfterAssemble hasA hasS rest

/-- When the pipeline exports at all, its first distribution of a solution to
the stored state precedes its first export step. -/
def distributeBeforeExport (es : List NotebookEvent) : Bool :=
  match es.findIdx? isExport, es.findIdx? isDistribute with
  | none, _ => true
  | some _, none => false
  | some i, some j => decide (j < i)

/-- A time-stepping loop body assembles, solves and distributes in that order
before exporting (the export may be absent). -/
def loopIterationOrdered : List NotebookEvent → Bool
  | [] => true
  | [NotebookEvent.assemble _, NotebookEvent.solve, NotebookEvent.distribute _,
     NotebookEvent.exportStep] => true
  | [NotebookEvent.assemble _, NotebookEvent.solve, NotebookEvent.distribute _] => true
  | _ => false

/-- The stated operation order of a solve pipeline: geometry and mesh first,
then parameters and boundary conditions, then per-assembler discretize before
assemble, assemble before solve, solve before distribute, first distribute
before any export, and a well-ordered loop body. -/
def solvePipelineOrdered (p : NotebookPipeline) : Bool :=
  let es := p.straight ++ p.loop
  allBefore es isGeometryOrMesh isAssignParams &&
  allBefore es isAssignParams isDiscretize &&
  discretizedBeforeAssemble [] es &&
  solveAfterAssemble false false es &&
  distributeBeforeExport es &&
  loopIterationOrdered p.loop

/-! ## Helper lemmas about the embedded linear algebra. -/

theorem vecScaleR_eq_scaleL (v : Vec) (c : ℚ) : vecScaleR v c = vecScaleL c v := by
  simp [vecScaleR, vecScaleL, mul_comm]

theorem matScaleR_eq_scaleL (a : Mat) (c : ℚ) : matScaleR a c = matScaleL c a := by
  simp [matScaleR, matScaleL, vecScaleR_eq_scaleL]

theorem dotQ_scaleL (c : ℚ) (u v : Vec) : dotQ (vecScaleL c u) v = c * dotQ u v := by
  induction u generalizing v with
  | nil => simp [dotQ, vecScaleL]
  | cons x xs ih =>
    cases v with
    | nil => simp [dotQ, vecScaleL]
    | cons y ys =>
      have hxs := ih ys
      simp only [dotQ, vecScaleL, List.map_cons, List.zipWith_cons_cons,
        List.sum_cons] at hxs ⊢
      rw [hxs]
      ring

theorem matMul_scaleL (c : ℚ) (a b : Mat) :
    matMul (matScaleL c a) b = matScaleL c (matMul a b) := by
  unfold matMul matScaleL vecScaleL
  simp only [List.map_map, Function.comp_def]
  refine List.map_congr_left (fun r _ => ?_)
  refine List.map_congr_left (fun col _ => ?_)
  exact dotQ_scaleL c r col

theorem updateCC_same (cc : CC) (i j : Fin 3) (m : Mat) : updateCC cc i j m i j = m := by
  simp [updateCC]

theorem updateCC_other (cc : CC) (i j a b : Fin 3) (m : Mat) (h : ¬(a = i ∧ b = j)) :
    updateCC cc i j m a b = cc a b := by
  simp [updateCC, h]

/-! ## Spec-side readings and modelled base-class contributions. -/

/-- The claim's reading of `ImplicitTpfa.assemble_matrix_rhs`, written from the
spec sentence: exactly `(dt * A, dt * b)` where `(A, b)` is the base
`pp.Tpfa.assemble_matrix_rhs` result on the same inputs. -/
def spec_implicit_tpfa_matrix_rhs (self : Tpfa)
    (base : Tpfa → Grid → Data → Mat × Vec) (g : Grid) (data : Data) : Mat × Vec :=
  let A := (base self g data).1
  let b := (base self g data).2
  let dt := (data.parameters self.keyword).time_step
  (matScaleL dt A, vecScaleL dt b)

/-- Modelled from the spec: the internal-boundary flux contribution of the
external base class `pp.Tpfa`, `div * bound_flux * proj`, without any time-step
scaling.  The base method is not part of this repository. -/
def tpfa_int_bound_flux_contribution (g : Grid) (bound_flux proj : Mat) : Mat :=
  matMul (matMul g.cell_faces.transpose bound_flux) proj

/-- Modelled from the spec: the right-hand side of the external base class
`pp.ScalarSource`, the stored `bound_source` matrix applied to the cell-wise
source array, without any time-step scaling. -/
def scalar_source_base_rhs (self : ScalarSource) (data : Data) : Vec :=
  matVec (data.discretization_matrices self.keyword).bound_source
    (data.parameters self.keyword).source

/-! ## Sample inputs used by the witness theorems. -/

/-- A zero-dimensional single-cell, single-face grid. -/
def gridPoint : Grid :=
  { dim := 0, num_cells := 1, num_faces := 1, cell_faces := [[1]], hf2f := [[1]] }

/-- A one-dimensional grid whose stored `bound_flux` will not match a one-row
mortar projection. -/
def gridLine : Grid :=
  { dim := 1, num_cells := 1, num_faces := 1, cell_faces := [[1]], hf2f := [[1]] }

/-- Data with time step 2, a one-cell source and 1x1 discretization matrices. -/
def dataA : Data :=
  { parameters := fun _ => { time_step := 2, source := [3] }
    discretization_matrices := fun _ => { bound_flux := [[1]], bound_source := [[1]] } }

/-- Data whose `bound_flux` has two columns, inconsistent with a one-row mortar
projection. -/
def dataB : Data :=
  { parameters := fun _ => { time_step := 2, source := [3] }
    discretization_matrices := fun _ => { bound_flux := [[1, 1]], bound_source := [[1]] } }

/-- Data whose source array has two values, one more than the grid has cells. -/
def dataC : Data :=
  { parameters := fun _ => { time_step := 2, source := [3, 4] }
    discretization_matrices := fun _ => { bound_flux := [[1]], bound_source := [[1]] } }

/-- An edge data dictionary with 1x1 mortar projections. -/
def mortarA : DataEdge :=
  { mortar_grid := { mortar_to_slave_int := [[1]], mortar_to_master_int := [[1]] } }

/-- An all-zero 3x3 block matrix. -/
def ccZero : CC := fun _ _ => [[0]]

/-- An all-zero 3x1 block right-hand side. -/
def rhsZero : RhsBlocks := fun _ => [0]

/-! ## Claim theorems. -/

/-- C1: for every grid `g` and data dictionary whose parameters under the
discretization keyword contain a time step `dt`,
`ImplicitTpfa.assemble_matrix_rhs(g, data)` returns exactly `(dt * A, dt * b)`
where `(A, b)` is the result of the base `pp.Tpfa.assemble_matrix_rhs` on the
same inputs: the wrapper only rescales the base discretization by the time
step. -/
theorem implicit_tpfa_matrix_rhs_rescales_base (self : ImplicitTpfa)
    (base : Tpfa → Grid → Data → Mat × Vec) (g : Grid) (data : Data) :
    ImplicitTpfa.assemble_matrix_rhs self base g data =
      spec_implicit_tpfa_matrix_rhs self base g data := by
  unfold ImplicitTpfa.assemble_matrix_rhs spec_implicit_tpfa_matrix_rhs
  simp [matScaleR_eq_scaleL, vecScaleR_eq_scaleL]

/-- C2: for every grid and data dictionary whose parameters under the
discretization keyword contain a time step `dt` and a source array with one
value per cell, `ImplicitScalarSource.assemble_rhs(g, data)` returns the vector
`bound_source * sources * dt`, the base `ScalarSource` right-hand side
multiplied by the scalar time step. -/
theorem implicit_scalar_source_rhs_rescales_base (self : ImplicitScalarSource)
    (g : Grid) (data : Data)
    (h : (data.parameters self.keyword).source.length = ScalarSource.ndof self g) :
    ImplicitScalarSource.assemble_rhs self g data =
      some (vecScaleR
        (matVec (data.discretization_matrices self.keyword).bound_source
          (data.parameters self.keyword).source)
        (data.parameters self.keyword).time_step) ∧
    vecScaleR
        (matVec (data.discretization_matrices self.keyword).bound_source
          (data.parameters self.keyword).source)
        (data.parameters self.keyword).time_step =
      vecScaleL (data.parameters self.keyword).time_step
        (scalar_source_base_rhs self data) := by
  constructor
  · unfold ImplicitScalarSource.assemble_rhs
    rw [if_pos h]
  · rw [vecScaleR_eq_scaleL]
    rfl

theorem implicit_scalar_source_rhs_rescales_base_witness :
    (dataA.parameters "transport").source.length =
      ScalarSource.ndof ⟨"transport"⟩ gridPoint ∧
    ImplicitScalarSource.assemble_rhs ⟨"transport"⟩ gridPoint dataA =
      some (vecScaleR
        (matVec (dataA.discretization_matrices "transport").bound_source
          (dataA.parameters "transport").source)
        (dataA.parameters "transport").time_step) :=
  ⟨by decide,
    (implicit_scalar_source_rhs_rescales_base ⟨"transport"⟩ gridPoint dataA
      (by decide)).1⟩

/-- C3: whenever `ImplicitTpfa.assemble_int_bound_flux` returns without error
it increments `cc[self_ind, 2]` by `dt * div * bound_flux * proj`, and
`ImplicitTpfa.assemble_int_bound_source` decrements `cc[self_ind, 2]` by
`proj * dt`: each override writes exactly the base-class contribution rescaled
by the scalar time step `dt`. -/
theorem implicit_tpfa_int_bound_terms_rescale (self : ImplicitTpfa) (g : Grid)
    (data : Data) (data_edge : DataEdge) (grid_swap : Bool) (cc matrix : CC)
    (rhs : RhsBlocks) (self_ind : Fin 3)
    (hok : (ImplicitTpfa.assemble_int_bound_flux self g data data_edge grid_swap
      cc matrix rhs self_ind).1 = none) :
    (ImplicitTpfa.assemble_int_bound_flux self g data data_edge grid_swap
        cc matrix rhs self_ind).2.1 self_ind 2 =
      matAdd (cc self_ind 2)
        (matScaleL (data.parameters self.keyword).time_step
          (tpfa_int_bound_flux_contribution g
            (mapped_bound_flux g (data.discretization_matrices self.keyword).bound_flux)
            (if grid_swap then data_edge.mortar_grid.mortar_to_slave_int
             else data_edge.mortar_grid.mortar_to_master_int))) ∧
    (ImplicitTpfa.assemble_int_bound_source self g data data_edge grid_swap
        cc matrix rhs self_ind).2.1 self_ind 2 =
      matSub (cc self_ind 2)
        (matScaleL (data.parameters self.keyword).time_step
          (if grid_swap then data_edge.mortar_grid.mortar_to_master_int
           else data_edge.mortar_grid.mortar_to_slave_int)) := by
  constructor
  · simp only [ImplicitTpfa.assemble_int_bound_flux] at hok ⊢
    by_cases hc : g.dim > 0 ∧
        colsOf (mapped_bound_flux g
          (data.discretization_matrices self.keyword).bound_flux) ≠
          rowsOf (if grid_swap then data_edge.mortar_grid.mortar_to_slave_int
                  else data_edge.mortar_grid.mortar_to_master_int)
    · rw [if_pos hc] at hok
      exact absurd hok (by simp)
    · rw [if_neg hc]
      simp only [updateCC_same]
      rw [matMul_scaleL, matMul_scaleL]
      rfl
  · simp only [ImplicitTpfa.assemble_int_bound_source]
    simp only [updateCC_same]
    rw [matScaleR_eq_scaleL]

theorem implicit_tpfa_int_bound_terms_rescale_witness :
    (ImplicitTpfa.assemble_int_bound_flux ⟨"transport"⟩ gridPoint dataA mortarA
      false ccZero ccZero rhsZero 1).1 = none ∧
    ((ImplicitTpfa.assemble_int_bound_flux ⟨"transport"⟩ gridPoint dataA mortarA
        false ccZero ccZero rhsZero 1).2.1 1 2 =
      matAdd (ccZero 1 2)
        (matScaleL (dataA.parameters "transport").time_step
          (tpfa_int_bound_flux_contribution gridPoint
            (mapped_bound_flux gridPoint
              (dataA.discretization_matrices "transport").bound_flux)
            (if false then mortarA.mortar_grid.mortar_to_slave_int
             else mortarA.mortar_grid.mortar_to_master_int))) ∧
    (ImplicitTpfa.assemble_int_bound_source ⟨"transport"⟩ gridPoint dataA mortarA
        false ccZero ccZero rhsZero 1).2.1 1 2 =
      matSub (ccZero 1 2)
        (matScaleL (dataA.parameters "transport").time_step
          (if false then mortarA.mortar_grid.mortar_to_master_int
           else mortarA.mortar_grid.mortar_to_slave_int))) :=
  ⟨by decide,
    implicit_tpfa_int_bound_terms_rescale ⟨"transport"⟩ gridPoint dataA mortarA
      false ccZero ccZero rhsZero 1 (by decide)⟩

/-- C8: `ImplicitTpfa.assemble_int_bound_flux` raises `ValueError` if and only
if the grid has dimension greater than 0 and, after the optional
sub-face-to-face mapping, the number of columns of `bound_flux` differs from
the number of rows of the mortar projection; when it raises, `cc` is left
unchanged. -/
theorem implicit_tpfa_int_bound_flux_error_iff (self : ImplicitTpfa) (g : Grid)
    (data : Data) (data_edge : DataEdge) (grid_swap : Bool) (cc matrix : CC)
    (rhs : RhsBlocks) (self_ind : Fin 3) :
    ((∃ msg, (ImplicitTpfa.assemble_int_bound_flux self g data data_edge
        grid_swap cc matrix rhs self_ind).1 = some msg) ↔
      (g.dim > 0 ∧
        colsOf (mapped_bound_flux g
          (data.discretization_matrices self.keyword).bound_flux) ≠
          rowsOf (if grid_swap then data_edge.mortar_grid.mortar_to_slave_int
                  else data_edge.mortar_grid.mortar_to_master_int))) ∧
    (∀ msg, (ImplicitTpfa.assemble_int_bound_flux self g data data_edge
        grid_swap cc matrix rhs self_ind).1 = some msg →
      (ImplicitTpfa.assemble_int_bound_flux self g data data_edge grid_swap
        cc matrix rhs self_ind).2.1 = cc) := by
  simp only [ImplicitTpfa.assemble_int_bound_flux]
  by_cases hc : g.dim > 0 ∧
      colsOf (mapped_bound_flux g
        (data.discretization_matrices self.keyword).bound_flux) ≠
        rowsOf (if grid_swap then data_edge.mortar_grid.mortar_to_slave_int
                else data_edge.mortar_grid.mortar_to_master_int)
  · rw [if_pos hc]
    exact ⟨by simpa using hc, fun _ _ => rfl⟩
  · rw [if_neg hc]
    exact ⟨by simpa using hc, fun msg hmsg => absurd hmsg (by simp)⟩

theorem implicit_tpfa_int_bound_flux_error_iff_witness :
    (∃ msg, (ImplicitTpfa.assemble_int_bound_flux ⟨"transport"⟩ gridLine dataB
      mortarA false ccZero ccZero rhsZero 1).1 = some msg) ∧
    (ImplicitTpfa.assemble_int_bound_flux ⟨"transport"⟩ gridLine dataB mortarA
      false ccZero ccZero rhsZero 1).2.1 = ccZero :=
  ⟨(implicit_tpfa_int_bound_flux_error_iff ⟨"transport"⟩ gridLine dataB mortarA
      false ccZero ccZero rhsZero 1).1.mpr (by decide),
   (implicit_tpfa_int_bound_flux_error_iff ⟨"transport"⟩ gridLine dataB mortarA
      false ccZero ccZero rhsZero 1).2
     "Inconsistent shapes. Did you define a sub-face boundary condition but only a face-wise mortar?"
     (by decide)⟩

/-- C9: whenever `ImplicitTpfa.assemble_int_bound_flux` or
`ImplicitTpfa.assemble_int_bound_source` returns normally, it has modified only
the single block `cc[self_ind, 2]`; every other block of `cc`, and the `matrix`
and `rhs` arguments, are unchanged by the call. -/
theorem implicit_tpfa_int_bound_frame (self : ImplicitTpfa) (g : Grid)
    (data : Data) (data_edge : DataEdge) (grid_swap : Bool) (cc matrix : CC)
    (rhs : RhsBlocks) (self_ind : Fin 3) :
    ((ImplicitTpfa.assemble_int_bound_flux self g data data_edge grid_swap
        cc matrix rhs self_ind).1 = none →
      ∀ i j : Fin 3, ¬(i = self_ind ∧ j = 2) →
        (ImplicitTpfa.assemble_int_bound_flux self g data data_edge grid_swap
          cc matrix rhs self_ind).2.1 i j = cc i j) ∧
    (ImplicitTpfa.assemble_int_bound_flux self g data data_edge grid_swap
      cc matrix rhs self_ind).2.2.1 = matrix ∧
    (ImplicitTpfa.assemble_int_bound_flux self g data data_edge grid_swap
      cc matrix rhs self_ind).2.2.2 = rhs ∧
    (∀ i j : Fin 3, ¬(i = self_ind ∧ j = 2) →
      (ImplicitTpfa.assemble_int_bound_source self g data data_edge grid_swap
        cc matrix rhs self_ind).2.1 i j = cc i j) ∧
    (ImplicitTpfa.assemble_int_bound_source self g data data_edge grid_swap
      cc matrix rhs self_ind).2.2.1 = matrix ∧
    (ImplicitTpfa.assemble_int_bound_source self g data data_edge grid_swap
      cc matrix rhs self_ind).2.2.2 = rhs := by
  simp only [ImplicitTpfa.assemble_int_bound_flux,
    ImplicitTpfa.assemble_int_bound_source]
  by_cases hc : g.dim > 0 ∧
      colsOf (mapped_bound_flux g
        (data.discretization_matrices self.keyword).bound_flux) ≠
        rowsOf (if grid_swap then data_edge.mortar_grid.mortar_to_slave_int
                else data_edge.mortar_grid.mortar_to_master_int)
  · rw [if_pos hc]
    refine ⟨?_, by trivial, by trivial, ?_, by trivial, by trivial⟩
    · intro h
      exact absurd h (by simp)
    · intro i j hij
      exact updateCC_other _ _ _ _ _ _ hij
  · rw [if_neg hc]
    refine ⟨?_, by trivial, by trivial, ?_, by trivial, by trivial⟩
    · intro _ i j hij
      exact updateCC_other _ _ _ _ _ _ hij
    · intro i j hij
      exact updateCC_other _ _ _ _ _ _ hij

theorem implicit_tpfa_int_bound_frame_witness :
    (ImplicitTpfa.assemble_int_bound_flux ⟨"transport"⟩ gridPoint dataA mortarA
      false ccZero ccZero rhsZero 1).2.1 0 0 = ccZero 0 0 ∧
    (ImplicitTpfa.assemble_int_bound_source ⟨"transport"⟩ gridPoint dataA mortarA
      false ccZero ccZero rhsZero 1).2.1 0 0 = ccZero 0 0 :=
  ⟨(implicit_tpfa_int_bound_frame ⟨"transport"⟩ gridPoint dataA mortarA false
      ccZero ccZero rhsZero 1).1 (by decide) 0 0 (by decide),
   (implicit_tpfa_int_bound_frame ⟨"transport"⟩ gridPoint dataA mortarA false
      ccZero ccZero rhsZero 1).2.2.2.1 0 0 (by decide)⟩

/-- C4: in every notebook solve pipeline, geometry and mesh are built first,
parameters and boundary conditions are assigned next, each assembler's
`discretize()` is called before its `assemble_matrix_rhs()`, the assembled
system is passed to the sparse linear solver, the solution is distributed to
the stored state before any export step, and every time-stepping iteration
assembles, solves and distributes in that order before exporting. -/
theorem notebook_solve_pipelines_respect_stage_order :
    notebookSolvePipelines.all solvePipelineOrdered = true := by decide

/-- C5: exactly one notebook cell records an error traceback from calling an
unsupported method: `network_2d.to_vtk` on a `FractureNetwork2d` raises
`AttributeError` because the 2-D network type has no `to_vtk` attribute, and
the failed call leaves the program state unchanged. -/
theorem single_error_traceback_is_to_vtk {σ : Type} (call : σ → σ) (s : σ) :
    recordedErrorOutputs.length = 1 ∧
    recordedErrorOutputs =
      [("src/unnamed/part_000", "AttributeError", "network_2d.to_vtk")] ∧
    callMethod fractureNetwork2dAttributes "to_vtk" call s =
      Except.error "AttributeError" ∧
    runCellKeepingState fractureNetwork2dAttributes "to_vtk" call s = s := by
  refine ⟨rfl, rfl, ?_, ?_⟩
  · unfold callMethod
    rw [if_neg (by decide)]
  · unfold runCellKeepingState callMethod
    rw [if_neg (by decide)]

/-- C6: the container build recipe clones exactly two external source
repositories, porepy and mastersproject, each pinned with `--single-branch` to
its `develop` branch; no other instruction clones a source repository. -/
theorem dockerfile_clones_exactly_two_develop_repositories :
    clonedSourceRepositories dockerfileInstructions =
      [(true, "develop", "https://github.com/pmgbergen/porepy.git"),
       (true, "develop", "https://github.com/haakon-e/mastersproject.git")] := by
  rfl

/-- C7: the classes `ImplicitTpfa` and `ImplicitScalarSource` declare no
constructor and no new instance attributes, so every object of these classes
carries exactly the state of its external base class. -/
theorem notebook_classes_add_no_state :
    ImplicitTpfa = Tpfa ∧ ImplicitScalarSource = ScalarSource :=
  ⟨rfl, rfl⟩

/-- C10: `ImplicitScalarSource.assemble_rhs` requires one source value per
cell: when `sources.size` differs from `ndof(g)` the assertion fails, and
under the precondition `sources.size == ndof(g)` (with the stored
`bound_source` matrix having one row per degree of freedom, as the external
`discretize` produces it) the assertion passes and the returned vector has
length `ndof(g)`. -/
theorem implicit_scalar_source_assertion_guards_ndof (self : ImplicitScalarSource)
    (g : Grid) (data : Data)
    (hbs : rowsOf (data.discretization_matrices self.keyword).bound_source =
      ScalarSource.ndof self g) :
    ((data.parameters self.keyword).source.length ≠ ScalarSource.ndof self g →
      ImplicitScalarSource.assemble_rhs self g data = none) ∧
    ((data.parameters self.keyword).source.length = ScalarSource.ndof self g →
      ∃ v, ImplicitScalarSource.assemble_rhs self g data = some v ∧
        v.length = ScalarSource.ndof self g) := by
  constructor
  · intro hne
    unfold ImplicitScalarSource.assemble_rhs
    rw [if_neg hne]
  · intro heq
    refine ⟨vecScaleR
        (matVec (data.discretization_matrices self.keyword).bound_source
          (data.parameters self.keyword).source)
        (data.parameters self.keyword).time_step, ?_, ?_⟩
    · unfold ImplicitScalarSource.assemble_rhs
      rw [if_pos heq]
    · have h2 : (data.discretization_matrices self.keyword).bound_source.length =
        ScalarSource.ndof self g := hbs
      simp [vecScaleR, matVec, h2]

theorem implicit_scalar_source_assertion_guards_ndof_witness :
    ImplicitScalarSource.assemble_rhs ⟨"transport"⟩ gridPoint dataC = none ∧
    (∃ v, ImplicitScalarSource.assemble_rhs ⟨"transport"⟩ gridPoint dataA = some v ∧
      v.length = ScalarSource.ndof ⟨"transport"⟩ gridPoint) :=
  ⟨(implicit_scalar_source_assertion_guards_ndof ⟨"transport"⟩ gridPoint dataC
      (by decide)).1 (by decide),
   (implicit_scalar_source_assertion_guards_ndof ⟨"transport"⟩ gridPoint dataA
      (by decide)).2 (by decide)⟩
